import Mathlib

/-!
Verification of the single-endpoint refactoring service in `api.py`.

The service reads a credential at startup, assembles a fixed prompt template
and a two-field structured-output descriptor, and serves one endpoint that
renders the prompt with the submitted code, calls a chat-model oracle once,
parses the reply into two fields, and maps every failure to a structured
JSON error body whose status code also becomes the transport-level status.

The embedding below is a shallow one: the handler is a total Lean function
in state-passing form, parameterized by the outcome of the single external
oracle call. The third-party pieces that are not part of the repository
(the chat client constructor and the structured-output parse step) enter as
explicit parameters or as spec-modelled definitions, each marked as such.
-/

set_option autoImplicit false

namespace Api

/-- Request model CodeInput (api.py lines 12-13): a single string field named
code. Pydantic imposes no constraint beyond the field being a string. -/
structure CodeInput where
  code : String
  deriving DecidableEq

/-- Response model CodeOutput (api.py lines 15-17): the refactored snippet and
the detected programming language. -/
structure CodeOutput where
  refactor_code : String
  language : String
  deriving DecidableEq

/-- Error model ErrorResponse (api.py lines 19-21): an integer HTTP status and
a human-readable message, produced only on failure paths. -/
structure ErrorResponse where
  status_code : Nat
  message : String
  deriving DecidableEq

/-- Chat client handle (api.py lines 31-33): the handle built by
ChatOpenAI with temperature 0.0 (recorded as the rational 0) and the fixed
model name. Its construction is third-party; only the handle is kept. -/
structure ChatClient where
  temperature : Rat
  model : String
  deriving DecidableEq

/-- Model name constant CHAT_MODEL (api.py line 31). -/
def CHAT_MODEL : String := "gpt-3.5-turbo"

/-- Prompt template CODE_TEMPLATE (api.py lines 40-53). In the Python triple
quoted literal a backslash before a newline deletes that newline, so most
source lines run together; the two lines without a trailing backslash keep
their newline. Apostrophes are written with the escape x27, and the braces of
the two placeholders enclose the placeholder names code and
format_instructions, exactly as in the source. -/
def CODE_TEMPLATE : String :=
  "Refactor the code based on the following criteria"
  ++ "                    imporve variable function and class name to be descriptive and meaningful "
  ++ "                    update the variable name whereever they are used "
  ++ "                    use consistent formating , indentation and commenting "
  ++ "                    follow the best practices for the respective programming language "
  ++ "                    group related code together and seperate concerns to enhance readibility and maintainibility "
  ++ "                    don\x27t change the exports or imports of the code "
  ++ "                    insert semicolon where ever is needed but don\x27t and redundant semicolons "
  ++ "                    Omit the language name at the top of the code "
  ++ "                    don\x27t change the css classname it could damage the html styling \n"
  ++ "                    that is delimited by triple backticks "
  ++ "                    code: ```{code}``` \n"
  ++ "                    {format_instructions}\n"
  ++ "                          "

/-- Response schema descriptor (api.py lines 58-60): a langchain ResponseSchema
is a named field with a description; only these two data are used. -/
structure ResponseSchema where
  name : String
  description : String
  deriving DecidableEq

/-- First declared output field (api.py line 58). -/
def refactored_code_schema : ResponseSchema :=
  { name := "refactor_code", description := "extract the refactored code" }

/-- Second declared output field (api.py line 59). -/
def language_schema : ResponseSchema :=
  { name := "language", description := "Programming language of refactored code" }

/-- The declared output contract (api.py line 60). -/
def response_schemas : List ResponseSchema := [refactored_code_schema, language_schema]

/-- Modelled from the spec: the textual formatting-instructions fragment that
the third-party structured-output parser derives from the two response schemas
(api.py line 64); the deriving code is not part of this repository. Per the
spec it is a fixed text naming the two expected output fields; no claim
observes its exact wording. -/
def format_instructions : String :=
  "Output a markdown code snippet containing a JSON object with exactly the keys refactor_code: extract the refactored code, and language: Programming language of refactored code."

/-- Character with code 34, the double quote, used by the modelled parse. -/
def quoteChar : Char := Char.ofNat 34

/-- Boolean prefix test on character lists, written structurally so that it
evaluates by kernel reduction. -/
def leadsWith : List Char → List Char → Bool
  | [], _ => true
  | _ :: _, [] => false
  | p :: ps, c :: cs => p == c && leadsWith ps cs

/-- Suffix of the text after the first occurrence of the pattern, if the
pattern occurs at all; written structurally for kernel reduction. -/
def afterFirst (pat : List Char) : List Char → Option (List Char)
  | [] => if pat.isEmpty then some [] else none
  | c :: rest =>
      if leadsWith pat (c :: rest) then some ((c :: rest).drop pat.length)
      else afterFirst pat rest

/-- Modelled from the spec: value extraction for one declared key, part of the
third-party structured-output parse step (api.py line 80), whose
implementation is not in this repository. Per the spec the parse validates the
presence of each declared key in the oracle text and extracts its value; here
a key is present when the text contains the quoted key followed by a colon and
an opening quote, and its value runs to the next quote. -/
def extractField (text key : String) : Option String :=
  match afterFirst ("\x22" ++ key ++ "\x22: \x22").toList text.toList with
  | none => none
  | some rest => some (String.mk (rest.takeWhile (fun c => c != quoteChar)))

/-- Modelled from the spec: the parse step of the structured-output parser
built from response_schemas (api.py lines 63 and 80). The library code is not
in this repository; per the spec it is a fallible parse step returning a
result or no usable result, validated against parsed key presence for the two
declared fields. It yields the two extracted values on conforming text and
nothing on nonconforming text. -/
def code_parser_parse (text : String) : Option CodeOutput :=
  match extractField text "refactor_code", extractField text "language" with
  | some rc, some lang => some { refactor_code := rc, language := lang }
  | _, _ => none

/-- Process-wide shared state assembled at startup (api.py lines 25-65): the
credential, the chat client handle, the prompt template, the derived format
instructions, and the structured-output parse function. The Python module
holds these as module-level globals; the handler only reads them. The parse
component is carried as a function so that claims quantify over the behavior
of the third-party parser. -/
structure ServerState where
  api_key : String
  chat_model : ChatClient
  template : String
  format_instructions : String
  parse : String → Option CodeOutput

/-- Prompt rendering (api.py lines 65 and 75): substitute the format
instructions and the submitted code for their placeholders in the template.
The third-party template engine substitutes each placeholder once without
rescanning substituted text; replacing the format-instructions placeholder
first reproduces that for every code string, because the instructions
fragment contains no code placeholder while a code string may well contain
either placeholder literally. -/
def render (st : ServerState) (code : String) : String :=
  (st.template.replace "{format_instructions}" st.format_instructions).replace "{code}" code

/-- Outcome of the single oracle call (api.py line 76): the call either raises
an exception with the given textual description, or returns a message whose
content is the given string. -/
inductive OracleResult where
  | raises (msg : String)
  | ok (content : String)
  deriving DecidableEq

/-- Body of the HTTP response of the endpoint: either the parsed CodeOutput on
success or a structured ErrorResponse on the failure paths. -/
inductive ResponseBody where
  | ok (out : CodeOutput)
  | err (e : ErrorResponse)
  deriving DecidableEq

/-- Transport-level response: the HTTP status finally set on the response
object (the decorator default 200 of api.py line 72, possibly overridden at
lines 88 and 92) together with the body. -/
structure HttpResponse where
  status : Nat
  body : ResponseBody
  deriving DecidableEq

/-- Handler continuation after the oracle call (api.py lines 76-94). An oracle
exception reaches the outer handler at line 90, which answers 500 with the
exception text embedded after the fixed prefix. Empty content raises
HTTPException 404 at line 78; a parse yielding no usable result raises
HTTPException 500 at line 82; both are caught at line 86, which copies the
status into the body and onto the transport response. A successful parse is
returned with the decorator status 200. -/
def handleOracleOutcome (st : ServerState) (r : OracleResult) :
    HttpResponse × ServerState :=
  match r with
  | .raises msg =>
      (⟨500, .err ⟨500, "Internal Server error: " ++ msg⟩⟩, st)
  | .ok content =>
      if content = "" then
        (⟨404, .err ⟨404, "Empty response from chat API"⟩⟩, st)
      else
        match st.parse content with
        | none => (⟨500, .err ⟨500, "Unexpected result from chat API"⟩⟩, st)
        | some out => (⟨200, .ok out⟩, st)

/-- The request handler refactor_code (api.py lines 72-94) in state-passing
form. The oracle argument gives the outcome of the single external call as a
function of the prompt actually sent. The handler reads the shared state and
returns it alongside the response; the Python handler never assigns to the
module globals. -/
def refactor_code (st : ServerState) (input : CodeInput)
    (oracle : String → OracleResult) : HttpResponse × ServerState :=
  handleOracleOutcome st (oracle (render st input.code))

/-- Request-body validation for CodeInput (api.py lines 12-13): the body must
carry a string code field; none models a request body without a usable string
field. No further constraint exists, so every string validates. -/
def validateCodeInput (body : Option String) : Option CodeInput :=
  body.map CodeInput.mk

/-- Startup sequence (api.py lines 24-65): read OPENAI_API_KEY from the
environment and abort with the EnvironmentError message if it is absent (lines
25-28); then construct the chat client, turning a constructor exception into
the RuntimeError message (lines 31-35); only then assemble the application and
the shared state used by every request (lines 38-65). The clientInit argument
gives the outcome of the third-party ChatOpenAI constructor on the model
name. -/
def startup (envKey : Option String)
    (clientInit : String → Except String ChatClient) : Except String ServerState :=
  match envKey with
  | none => .error "OpenAI API key is missing. Please set the OPENAI_API_KEY environment variable"
  | some key =>
      match clientInit CHAT_MODEL with
      | .error e => .error ("Failed to initialize ChatOpenAI instance: " ++ e)
      | .ok client =>
          .ok { api_key := key, chat_model := client, template := CODE_TEMPLATE,
                format_instructions := format_instructions, parse := code_parser_parse }

/-- Concrete client handle used by witnesses. -/
def demoClient : ChatClient := { temperature := 0, model := CHAT_MODEL }

/-- Concrete shared state used by witnesses, as assembled by startup. -/
def demoState : ServerState :=
  { api_key := "sk-test", chat_model := demoClient, template := CODE_TEMPLATE,
    format_instructions := format_instructions, parse := code_parser_parse }

/-- Conforming oracle text used by witnesses: both declared keys present. -/
def demoText : String :=
  "\x22refactor_code\x22: \x22def add_one(x):\n    return x + 1\x22\n\x22language\x22: \x22python\x22"

/-- Nonconforming oracle text used by witnesses: the language key is absent. -/
def demoBadText : String := "\x22refactor_code\x22: \x22x\x22"

theorem handleOracleOutcome_snd (st : ServerState) (r : OracleResult) :
    (handleOracleOutcome st r).2 = st := by
  rcases r with msg | content
  · rfl
  · by_cases hc : content = ""
    · simp [handleOracleOutcome, hc]
    · rcases hp : st.parse content with _ | out <;>
        simp [handleOracleOutcome, hc, hp]

/-- C1: whenever the oracle call succeeds with non-empty content and the parse
step extracts the two declared fields from that content, the handler returns
transport status 200 with exactly those two fields as its body. -/
theorem C1_success_returns_parsed_fields (st : ServerState) (input : CodeInput)
    (oracle : String → OracleResult) (content : String) (out : CodeOutput)
    (hcall : oracle (render st input.code) = .ok content)
    (hne : content ≠ "")
    (hparse : st.parse content = some out) :
    (refactor_code st input oracle).1 = ⟨200, .ok out⟩ := by
  simp [refactor_code, handleOracleOutcome, hcall, hne, hparse]

theorem C1_witness :
    (refactor_code demoState ⟨"def f(x): return x+1"⟩ (fun _ => .ok demoText)).1
      = ⟨200, .ok ⟨"def add_one(x):\n    return x + 1", "python"⟩⟩ :=
  C1_success_returns_parsed_fields demoState ⟨"def f(x): return x+1"⟩
    (fun _ => .ok demoText) demoText ⟨"def add_one(x):\n    return x + 1", "python"⟩
    rfl (by decide) (by decide)

/-- C2: whenever the oracle returns non-empty text from which the parse step
can extract no usable result (nonconforming text, e.g. a missing language
key), the handler answers transport status 500 with the one fixed message,
whatever the nonconforming text was. -/
theorem C2_unparseable_fixed_message (st : ServerState) (input : CodeInput)
    (oracle : String → OracleResult) (content : String)
    (hcall : oracle (render st input.code) = .ok content)
    (hne : content ≠ "")
    (hparse : st.parse content = none) :
    (refactor_code st input oracle).1
      = ⟨500, .err ⟨500, "Unexpected result from chat API"⟩⟩ := by
  simp [refactor_code, handleOracleOutcome, hcall, hne, hparse]

theorem C2_witness :
    (refactor_code demoState ⟨"def f(x): return x+1"⟩ (fun _ => .ok demoBadText)).1
      = ⟨500, .err ⟨500, "Unexpected result from chat API"⟩⟩ :=
  C2_unparseable_fixed_message demoState ⟨"def f(x): return x+1"⟩
    (fun _ => .ok demoBadText) demoBadText rfl (by decide) (by decide)

/-- C3: whenever the oracle call returns empty content, the handler answers
transport status 404 with an ErrorResponse whose status_code field is 404 and
the fixed message, and the parse component of the shared state is never
consulted: the response is the same under every parse function. -/
theorem C3_empty_content_404 (st : ServerState) (input : CodeInput)
    (oracle : String → OracleResult)
    (hcall : oracle (render st input.code) = .ok "") :
    (refactor_code st input oracle).1
        = ⟨404, .err ⟨404, "Empty response from chat API"⟩⟩
      ∧ ∀ p, (refactor_code { st with parse := p } input oracle).1
          = (refactor_code st input oracle).1 := by
  constructor
  · simp [refactor_code, handleOracleOutcome, hcall]
  · intro p
    have hcall2 : oracle (render { st with parse := p } input.code) = .ok "" := hcall
    simp [refactor_code, handleOracleOutcome, hcall, hcall2]

theorem C3_witness :
    (refactor_code demoState ⟨"def f(x): return x+1"⟩ (fun _ => .ok "")).1
        = ⟨404, .err ⟨404, "Empty response from chat API"⟩⟩
      ∧ ∀ p, (refactor_code { demoState with parse := p } ⟨"def f(x): return x+1"⟩
            (fun _ => .ok "")).1
          = (refactor_code demoState ⟨"def f(x): return x+1"⟩ (fun _ => .ok "")).1 :=
  C3_empty_content_404 demoState ⟨"def f(x): return x+1"⟩ (fun _ => .ok "") rfl

/-- C4: whenever the oracle call raises, the handler answers transport status
500 with an ErrorResponse whose message contains the textual description of
the raised exception as a substring. -/
theorem C4_oracle_exception_message_contains (st : ServerState)
    (input : CodeInput) (oracle : String → OracleResult) (msg : String)
    (hcall : oracle (render st input.code) = .raises msg) :
    (refactor_code st input oracle).1.status = 500
      ∧ ∃ e, (refactor_code st input oracle).1.body = .err e
          ∧ ∃ pre suf, e.message = pre ++ msg ++ suf := by
  refine ⟨?_, ⟨500, "Internal Server error: " ++ msg⟩, ?_, "Internal Server error: ", "", ?_⟩
  · simp [refactor_code, handleOracleOutcome, hcall]
  · simp [refactor_code, handleOracleOutcome, hcall]
  · simp

theorem C4_witness :
    (refactor_code demoState ⟨"def f(x): return x+1"⟩ (fun _ => .raises "boom")).1.status = 500
      ∧ ∃ e, (refactor_code demoState ⟨"def f(x): return x+1"⟩
            (fun _ => .raises "boom")).1.body = .err e
          ∧ ∃ pre suf, e.message = pre ++ "boom" ++ suf :=
  C4_oracle_exception_message_contains demoState ⟨"def f(x): return x+1"⟩
    (fun _ => .raises "boom") "boom" rfl

/-- C5: the handler is a total function into structured responses, and on
every failure path the transport-level status equals the status_code field
carried inside the ErrorResponse body. -/
theorem C5_transport_status_matches_body (st : ServerState) (input : CodeInput)
    (oracle : String → OracleResult) (e : ErrorResponse)
    (h : (refactor_code st input oracle).1.body = .err e) :
    (refactor_code st input oracle).1.status = e.status_code := by
  rcases hr : oracle (render st input.code) with msg | content
  · simp only [refactor_code, handleOracleOutcome, hr] at h ⊢
    injection h with h2
    rw [← h2]
  · by_cases hc : content = ""
    · simp only [refactor_code, handleOracleOutcome, hr, hc, if_pos] at h ⊢
      injection h with h2
      rw [← h2]
    · rcases hp : st.parse content with _ | out
      · simp only [refactor_code, handleOracleOutcome, hr, hc, if_neg, hp] at h ⊢
        injection h with h2
        rw [← h2]
        simp
      · simp [refactor_code, handleOracleOutcome, hr, hc, hp] at h

theorem C5_witness :
    (refactor_code demoState ⟨"def f(x): return x+1"⟩ (fun _ => .raises "oops")).1.status
      = (ErrorResponse.mk 500 "Internal Server error: oops").status_code :=
  C5_transport_status_matches_body demoState ⟨"def f(x): return x+1"⟩
    (fun _ => .raises "oops") ⟨500, "Internal Server error: oops"⟩ rfl

/-- C6: prompt rendering is deterministic: it depends only on the shared state
and the submitted code, and since an invocation of the handler hands the
shared state back unchanged, a second invocation with the same code sends a
prompt byte-identical to the first, whatever the first oracle outcome was. -/
theorem C6_prompt_deterministic (st : ServerState) (input : CodeInput)
    (oracle : String → OracleResult) :
    render (refactor_code st input oracle).2 input.code = render st input.code := by
  have h : (refactor_code st input oracle).2 = st :=
    handleOracleOutcome_snd st (oracle (render st input.code))
  rw [h]

/-- C7: the empty code string passes request validation, and the handler
forwards it like any other string: it consults the oracle exactly at the
prompt obtained by substituting the empty string into the template. -/
theorem C7_empty_code_accepted (st : ServerState)
    (oracle : String → OracleResult) :
    validateCodeInput (some "") = some ⟨""⟩
      ∧ refactor_code st ⟨""⟩ oracle = handleOracleOutcome st (oracle (render st "")) :=
  ⟨rfl, rfl⟩

/-- C8: the handler mutates no process-wide shared state: the state observed
after any invocation equals the state observed before it, every field (the
credential, client handle, template, format instructions and parse function)
included. -/
theorem C8_no_shared_state_mutation (st : ServerState) (input : CodeInput)
    (oracle : String → OracleResult) :
    (refactor_code st input oracle).2 = st :=
  handleOracleOutcome_snd st (oracle (render st input.code))

/-- C9: with the credential unset, startup aborts with the fixed configuration
error whatever the client constructor would do, so no server state is ever
assembled and no request served; with the credential set and the client
constructor succeeding, startup proceeds to a ready state. -/
theorem C9_startup_requires_credential
    (clientInit : String → Except String ChatClient) :
    startup none clientInit
        = .error "OpenAI API key is missing. Please set the OPENAI_API_KEY environment variable"
      ∧ ∀ key client, clientInit CHAT_MODEL = .ok client →
          ∃ st, startup (some key) clientInit = .ok st := by
  constructor
  · rfl
  · intro key client hc
    refine ⟨{ api_key := key, chat_model := client, template := CODE_TEMPLATE,
              format_instructions := format_instructions, parse := code_parser_parse }, ?_⟩
    simp [startup, hc]

theorem C9_witness :
    startup none (fun _ => .ok demoClient)
        = .error "OpenAI API key is missing. Please set the OPENAI_API_KEY environment variable"
      ∧ ∃ st, startup (some "sk-test") (fun _ => .ok demoClient) = .ok st :=
  ⟨(C9_startup_requires_credential (fun _ => .ok demoClient)).1,
    (C9_startup_requires_credential (fun _ => .ok demoClient)).2 "sk-test" demoClient rfl⟩

/-- C10: whenever the handler catches a non-HTTPException exception, here the
oracle call raising with a given textual description, the response body is the
ErrorResponse with status_code 500 and message exactly the fixed prefix
followed by that description, and the transport status is 500. -/
theorem C10_internal_error_message_exact (st : ServerState) (input : CodeInput)
    (oracle : String → OracleResult) (msg : String)
    (hcall : oracle (render st input.code) = .raises msg) :
    (refactor_code st input oracle).1
      = ⟨500, .err ⟨500, "Internal Server error: " ++ msg⟩⟩ := by
  simp [refactor_code, handleOracleOutcome, hcall]

theorem C10_witness :
    (refactor_code demoState ⟨"def f(x): return x+1"⟩
        (fun _ => .raises "connection reset")).1
      = ⟨500, .err ⟨500, "Internal Server error: connection reset"⟩⟩ :=
  C10_internal_error_message_exact demoState ⟨"def f(x): return x+1"⟩
    (fun _ => .raises "connection reset") "connection reset" rfl

end Api
